import Mathlib

/-!
Verification development for the commitment-transaction construction and
fee/dust accounting core of `rust-lightning` (files
`lightning/src/sign/tx_builder.rs`, `lightning/src/sign/claims_sweeper.rs`,
`lightning/src/sign/witness_builder.rs`,
`lightning/src/util/test_channel_signer.rs`).

Machine integers (`u32`, `u64`) are embedded as `Nat`.  Checked Rust
arithmetic (`checked_sub`) becomes `Option`-valued subtraction, saturating
arithmetic becomes truncated `Nat` subtraction, and the plain (unchecked)
`u64` subtractions of the source are embedded with their release-profile
wrap-around semantics, written explicitly modulo `2 ^ 64` (`wsub64`).
Fallible paths (`Result<_, ()>`, `unwrap`, `assert!`, `panic!`) are embedded
as `Option`, `none` standing for both a typed `Err` and an abort; where a
claim depends on the distinction this is noted at the theorem.
-/

/-- Channel feature flags relevant to the fee/dust formulas.  The concrete
`ChannelTypeFeatures` type lives outside the analyzed files; only the two
capability tests exercised by this core are represented. -/
structure ChannelTypeFeatures where
  anchors_zero_fee_htlc_tx : Bool
  anchor_zero_fee_commitments : Bool
deriving DecidableEq, Repr

def ChannelTypeFeatures.supports_anchors_zero_fee_htlc_tx (ct : ChannelTypeFeatures) : Bool :=
  ct.anchors_zero_fee_htlc_tx

def ChannelTypeFeatures.supports_anchor_zero_fee_commitments (ct : ChannelTypeFeatures) : Bool :=
  ct.anchor_zero_fee_commitments

/-- Modelled from the spec: the channel type "carries zero-fee
conditional-payment (HTLC) transactions" when either anchor variant that
moves second-stage fees off the commitment is negotiated. -/
def ChannelTypeFeatures.has_zero_fee_htlc_txs (ct : ChannelTypeFeatures) : Bool :=
  ct.anchors_zero_fee_htlc_tx || ct.anchor_zero_fee_commitments

/-- Modelled from the spec: weight of the "received" (success-path)
second-stage HTLC transaction template; `ln/chan_utils.rs` is not among the
analyzed files.  The weight differs between channel-type templates; the
protocol template values are used. -/
def htlc_success_tx_weight (ct : ChannelTypeFeatures) : Nat :=
  if ct.anchors_zero_fee_htlc_tx then 706 else 703

/-- Modelled from the spec: weight of the "offered" (timeout-path)
second-stage HTLC transaction template (see `htlc_success_tx_weight`). -/
def htlc_timeout_tx_weight (ct : ChannelTypeFeatures) : Nat :=
  if ct.anchors_zero_fee_htlc_tx then 666 else 663

/-- Modelled from the spec: per-payment second-stage (success, timeout)
transaction fees; zero when the channel type carries zero-fee HTLC
transactions, otherwise `feerate * weight / 1000` rounded down
(`ln/chan_utils.rs` is not among the analyzed files). -/
def second_stage_tx_fees_sat (ct : ChannelTypeFeatures) (feerate_per_kw : Nat) : Nat × Nat :=
  if ct.has_zero_fee_htlc_txs then
    (0, 0)
  else
    (feerate_per_kw * htlc_success_tx_weight ct / 1000,
     feerate_per_kw * htlc_timeout_tx_weight ct / 1000)

/-- Modelled from the spec: base weight of the commitment transaction
template (`ln/channel.rs` constants are not among the analyzed files). -/
def commitment_tx_base_weight (ct : ChannelTypeFeatures) : Nat :=
  if ct.anchors_zero_fee_htlc_tx then 1124 else 724

/-- Modelled from the spec: marginal commitment-transaction weight of one
non-dust HTLC output. -/
def COMMITMENT_TX_WEIGHT_PER_HTLC : Nat := 172

/-- Modelled from the spec: the commitment-transaction fee, a function of
the feerate and the non-dust HTLC count, rounded down; zero for the
zero-fee-commitment channel variant (`ln/chan_utils.rs` is not among the
analyzed files). -/
def commit_tx_fee_sat (feerate_per_kw : Nat) (num_htlcs : Nat) (ct : ChannelTypeFeatures) : Nat :=
  if ct.anchor_zero_fee_commitments then 0
  else feerate_per_kw * (commitment_tx_base_weight ct + num_htlcs * COMMITMENT_TX_WEIGHT_PER_HTLC) / 1000

/-- Modelled from the spec: aggregate second-stage transaction fees for a
count of accepted (success-path) and offered (timeout-path) non-dust HTLCs;
zero when the zero-fee conditional-payment feature is active
(`ln/chan_utils.rs` is not among the analyzed files). -/
def htlc_tx_fees_sat (feerate_per_kw num_accepted_htlcs num_offered_htlcs : Nat)
    (ct : ChannelTypeFeatures) : Nat :=
  if ct.has_zero_fee_htlc_txs then 0
  else
    num_accepted_htlcs * htlc_success_tx_weight ct * feerate_per_kw / 1000
      + num_offered_htlcs * htlc_timeout_tx_weight ct * feerate_per_kw / 1000

/-- Modelled from the spec: fixed value of one auxiliary anchor output
(`ln/channel.rs` is not among the analyzed files). -/
def ANCHOR_OUTPUT_VALUE_SATOSHI : Nat := 330

/-- Modelled from the spec: multiplier applied to the reserved commitment
fee on non-anchor channels to buffer against fee spikes (`ln/channel.rs` is
not among the analyzed files). -/
def FEE_SPIKE_BUFFER_FEE_INCREASE_MULTIPLE : Nat := 2

/-- Rust `u64::checked_sub`: `some (a - b)` when it does not underflow. -/
def checked_sub (a b : Nat) : Option Nat :=
  if b ≤ a then some (a - b) else none

/-- Plain (unchecked) `u64` subtraction under release-profile semantics:
wraps around modulo `2 ^ 64`. -/
def wsub64 (a b : Nat) : Nat :=
  (a % 2 ^ 64 + (2 ^ 64 - b % 2 ^ 64)) % 2 ^ 64

/-- Rust `u64 as i64` cast: reinterpret the low 64 bits as a signed value. -/
def i64_of_u64 (n : Nat) : Int :=
  if n % 2 ^ 64 < 2 ^ 63 then (n % 2 ^ 64 : Int) else (n % 2 ^ 64 : Int) - 2 ^ 64

/-- Rust `u64::try_into::<i64>().unwrap_or(i64::MAX)`. -/
def i64_try_of_u64 (n : Nat) : Int :=
  if n ≤ 2 ^ 63 - 1 then (n : Int) else 2 ^ 63 - 1

/-- One pending HTLC as seen by the stats builder (`tx_builder.rs`). -/
structure HTLCAmountDirection where
  outbound : Bool
  amount_msat : Nat
deriving DecidableEq, Repr

/-- Dust classifier `HTLCAmountDirection::is_dust` (`tx_builder.rs`). -/
def HTLCAmountDirection.is_dust (h : HTLCAmountDirection) (l : Bool)
    (feerate_per_kw broadcaster_dust_limit_satoshis : Nat) (ct : ChannelTypeFeatures) : Bool :=
  let fees := second_stage_tx_fees_sat ct feerate_per_kw
  let htlc_tx_fee_sat := if h.outbound == l then fees.2 else fees.1
  decide (h.amount_msat / 1000 < broadcaster_dust_limit_satoshis + htlc_tx_fee_sat)

/-- Per-commitment statistics returned by the stats builder
(`tx_builder.rs`). -/
structure NextCommitmentStats where
  is_outbound_from_holder : Bool
  inbound_htlcs_count : Nat
  inbound_htlcs_value_msat : Nat
  holder_balance_before_fee_msat : Nat
  counterparty_balance_before_fee_msat : Nat
  nondust_htlc_count : Nat
  commit_tx_fee_sat : Nat
  dust_exposure_msat : Nat
  extra_accepted_htlc_dust_exposure_msat : Nat
deriving DecidableEq, Repr

/-- Commitment and second-stage fee totals used for counterparty dust
exposure (`commit_plus_htlc_tx_fees_msat` in `tx_builder.rs`). -/
def commit_plus_htlc_tx_fees_msat (l : Bool) (next_commitment_htlcs : List HTLCAmountDirection)
    (dust_buffer_feerate feerate broadcaster_dust_limit_satoshis : Nat)
    (ct : ChannelTypeFeatures) : Nat × Nat :=
  let accepted_nondust_htlcs :=
    (next_commitment_htlcs.filter (fun h =>
      h.outbound != l && !(h.is_dust l dust_buffer_feerate broadcaster_dust_limit_satoshis ct))).length
  let offered_nondust_htlcs :=
    (next_commitment_htlcs.filter (fun h =>
      h.outbound == l && !(h.is_dust l dust_buffer_feerate broadcaster_dust_limit_satoshis ct))).length
  let commitment_fee_sat :=
    commit_tx_fee_sat feerate (accepted_nondust_htlcs + offered_nondust_htlcs) ct
  let second_stage_fees_sat :=
    htlc_tx_fees_sat feerate accepted_nondust_htlcs offered_nondust_htlcs ct
  let total_fees_msat := (commitment_fee_sat + second_stage_fees_sat) * 1000
  let extra_accepted_htlc_commitment_fee_sat :=
    commit_tx_fee_sat feerate (accepted_nondust_htlcs + 1 + offered_nondust_htlcs) ct
  let extra_accepted_htlc_second_stage_fees_sat :=
    htlc_tx_fees_sat feerate (accepted_nondust_htlcs + 1) offered_nondust_htlcs ct
  let extra_accepted_htlc_total_fees_msat :=
    (extra_accepted_htlc_commitment_fee_sat + extra_accepted_htlc_second_stage_fees_sat) * 1000
  (total_fees_msat, extra_accepted_htlc_total_fees_msat)

/-- Anchor-output subtraction from the funder's balance
(`subtract_addl_outputs` in `tx_builder.rs`); the source deliberately uses
checked subtraction, returning `Err` (here `none`) on underflow. -/
def subtract_addl_outputs (is_outbound_from_holder : Bool)
    (value_to_self_after_htlcs_msat value_to_remote_after_htlcs_msat : Nat)
    (ct : ChannelTypeFeatures) : Option (Nat × Nat) :=
  let total_anchors_sat :=
    if ct.supports_anchors_zero_fee_htlc_tx then ANCHOR_OUTPUT_VALUE_SATOSHI * 2 else 0
  if is_outbound_from_holder then
    (checked_sub value_to_self_after_htlcs_msat (total_anchors_sat * 1000)).map
      (fun v => (v, value_to_remote_after_htlcs_msat))
  else
    (checked_sub value_to_remote_after_htlcs_msat (total_anchors_sat * 1000)).map
      (fun v => (value_to_self_after_htlcs_msat, v))

/-- Inflated feerate for dust-exposure estimation (`get_dust_buffer_feerate`
in `tx_builder.rs`): `u32` saturating add of 2530 versus
`checked_mul(1250) / 1000` defaulting to `u32::MAX` on overflow. -/
def get_dust_buffer_feerate (feerate_per_kw : Nat) : Nat :=
  let feerate_plus_quarter : Option Nat :=
    (if feerate_per_kw * 1250 < 2 ^ 32 then some (feerate_per_kw * 1250) else none).map
      (fun v => v / 1000)
  max (min (feerate_per_kw + 2530) (2 ^ 32 - 1)) (feerate_plus_quarter.getD (2 ^ 32 - 1))

/-- Per-party channel constraints handed to the estimator
(`tx_builder.rs`). -/
structure ChannelConstraints where
  dust_limit_satoshis : Nat
  channel_reserve_satoshis : Nat
  htlc_minimum_msat : Nat
  max_htlc_value_in_flight_msat : Nat
  max_accepted_htlcs : Nat
deriving DecidableEq, Repr

/-- Result record of the estimator (`AvailableBalances` in
`ln/channel.rs`, fields as used by `tx_builder.rs`). -/
structure AvailableBalances where
  inbound_capacity_msat : Nat
  outbound_capacity_msat : Nat
  next_outbound_htlc_limit_msat : Nat
  next_outbound_htlc_minimum_msat : Nat
deriving DecidableEq, Repr

/-- Stats builder `SpecTxBuilder::get_next_commitment_stats`
(`tx_builder.rs`).  `Result<NextCommitmentStats, ()>` is embedded as
`Option`; the `debug_assert` statements (compiled out in release) are not
modelled. -/
def get_next_commitment_stats (l is_outbound_from_holder : Bool)
    (channel_value_satoshis value_to_holder_msat : Nat)
    (next_commitment_htlcs : List HTLCAmountDirection)
    (addl_nondust_htlc_count feerate_per_kw : Nat)
    (dust_exposure_limiting_feerate : Option Nat)
    (broadcaster_dust_limit_satoshis : Nat) (ct : ChannelTypeFeatures) :
    Option NextCommitmentStats := do
  let excess_feerate := feerate_per_kw - dust_exposure_limiting_feerate.getD feerate_per_kw
  let inbound_htlcs_count := (next_commitment_htlcs.filter (fun h => !h.outbound)).length
  let value_to_counterparty_msat ←
    checked_sub (channel_value_satoshis * 1000) value_to_holder_msat
  let outbound_htlcs_value_msat :=
    ((next_commitment_htlcs.filter (fun h => h.outbound)).map (fun h => h.amount_msat)).sum
  let inbound_htlcs_value_msat :=
    ((next_commitment_htlcs.filter (fun h => !h.outbound)).map (fun h => h.amount_msat)).sum
  let value_to_holder_after_htlcs_msat ←
    checked_sub value_to_holder_msat outbound_htlcs_value_msat
  let value_to_counterparty_after_htlcs_msat ←
    checked_sub value_to_counterparty_msat inbound_htlcs_value_msat
  let balances ← subtract_addl_outputs is_outbound_from_holder
    value_to_holder_after_htlcs_msat value_to_counterparty_after_htlcs_msat ct
  let dust_buffer_feerate := get_dust_buffer_feerate feerate_per_kw
  let nondust_htlc_count :=
    (next_commitment_htlcs.filter (fun h =>
      !(h.is_dust l feerate_per_kw broadcaster_dust_limit_satoshis ct))).length
  let commit_fee_sat := commit_tx_fee_sat feerate_per_kw
    (nondust_htlc_count + addl_nondust_htlc_count) ct
  let dust_exposure_msat :=
    ((next_commitment_htlcs.filter (fun h =>
      h.is_dust l dust_buffer_feerate broadcaster_dust_limit_satoshis ct)).map
      (fun h => h.amount_msat)).sum
  let exposures :=
    if l then
      (dust_exposure_msat, dust_exposure_msat)
    else
      let fees := commit_plus_htlc_tx_fees_msat l next_commitment_htlcs dust_buffer_feerate
        excess_feerate broadcaster_dust_limit_satoshis ct
      (dust_exposure_msat + fees.1, dust_exposure_msat + fees.2)
  pure
    { is_outbound_from_holder := is_outbound_from_holder
      inbound_htlcs_count := inbound_htlcs_count
      inbound_htlcs_value_msat := inbound_htlcs_value_msat
      holder_balance_before_fee_msat := balances.1
      counterparty_balance_before_fee_msat := balances.2
      nondust_htlc_count := nondust_htlc_count + addl_nondust_htlc_count
      commit_tx_fee_sat := commit_fee_sat
      dust_exposure_msat := exposures.1
      extra_accepted_htlc_dust_exposure_msat := exposures.2 }

/-- Pure remainder of `SpecTxBuilder::get_available_balances`
(`tx_builder.rs`, lines after the three stats calls), parameterized by the
three already-computed stats records.  The mutable reassignments of the
source become sequential shadowing bindings, and the
`if let Some(remaining_limit_msat)` block becomes two conditionals reading
the option through `isSome`/`getD`; the three plain `u64` subtractions of
the source (the two `* 1000 - 1` right-below-dust values and the
max-in-flight headroom) keep their unchecked wrap-around semantics via
`wsub64`. -/
def available_balances_after_stats (is_outbound_from_holder : Bool)
    (pending_htlcs : List HTLCAmountDirection) (feerate_per_kw : Nat)
    (max_dust_htlc_exposure_msat : Nat)
    (holder_channel_constraints counterparty_channel_constraints : ChannelConstraints)
    (ct : ChannelTypeFeatures)
    (local_stats_max_fee local_stats_min_fee remote_stats : NextCommitmentStats) :
    AvailableBalances :=
  let outbound_capacity_msat :=
    local_stats_max_fee.holder_balance_before_fee_msat
      - holder_channel_constraints.channel_reserve_satoshis * 1000
  let available_capacity_msat := outbound_capacity_msat
  let real_fees := second_stage_tx_fees_sat ct feerate_per_kw
  let real_htlc_success_tx_fee_sat := real_fees.1
  let real_htlc_timeout_tx_fee_sat := real_fees.2
  let available_capacity_msat :=
    if is_outbound_from_holder then
      let real_dust_limit_timeout_sat :=
        real_htlc_timeout_tx_fee_sat + holder_channel_constraints.dust_limit_satoshis
      let max_reserved_commit_tx_fee_msat := local_stats_max_fee.commit_tx_fee_sat * 1000
      let min_reserved_commit_tx_fee_msat := local_stats_min_fee.commit_tx_fee_sat * 1000
      let max_reserved_commit_tx_fee_msat :=
        if !ct.supports_anchors_zero_fee_htlc_tx then
          max_reserved_commit_tx_fee_msat * FEE_SPIKE_BUFFER_FEE_INCREASE_MULTIPLE
        else max_reserved_commit_tx_fee_msat
      let min_reserved_commit_tx_fee_msat :=
        if !ct.supports_anchors_zero_fee_htlc_tx then
          min_reserved_commit_tx_fee_msat * FEE_SPIKE_BUFFER_FEE_INCREASE_MULTIPLE
        else min_reserved_commit_tx_fee_msat
      let capacity_minus_max_commitment_fee_msat :=
        available_capacity_msat - max_reserved_commit_tx_fee_msat
      if capacity_minus_max_commitment_fee_msat < real_dust_limit_timeout_sat * 1000 then
        let capacity_minus_min_commitment_fee_msat :=
          available_capacity_msat - min_reserved_commit_tx_fee_msat
        min (wsub64 (real_dust_limit_timeout_sat * 1000) 1) capacity_minus_min_commitment_fee_msat
      else
        capacity_minus_max_commitment_fee_msat
    else
      let real_dust_limit_success_sat :=
        real_htlc_success_tx_fee_sat + counterparty_channel_constraints.dust_limit_satoshis
      let max_reserved_commit_tx_fee_msat := remote_stats.commit_tx_fee_sat * 1000
      let holder_selected_chan_reserve_msat :=
        counterparty_channel_constraints.channel_reserve_satoshis * 1000
      if remote_stats.counterparty_balance_before_fee_msat
          < max_reserved_commit_tx_fee_msat + holder_selected_chan_reserve_msat then
        min available_capacity_msat (wsub64 (real_dust_limit_success_sat * 1000) 1)
      else
        available_capacity_msat
  let next_outbound_htlc_minimum_msat := counterparty_channel_constraints.htlc_minimum_msat
  let remaining_msat_below_dust_exposure_limit : Option Nat := none
  let dust_exposure_dust_limit_msat : Nat := 0
  let dust_buffer_feerate := get_dust_buffer_feerate feerate_per_kw
  let buffer_fees := second_stage_tx_fees_sat ct dust_buffer_feerate
  let buffer_dust_limit_success_sat :=
    buffer_fees.1 + counterparty_channel_constraints.dust_limit_satoshis
  let buffer_dust_limit_timeout_sat :=
    buffer_fees.2 + holder_channel_constraints.dust_limit_satoshis
  let available_capacity_msat :=
    if remote_stats.extra_accepted_htlc_dust_exposure_msat > max_dust_htlc_exposure_msat then
      min available_capacity_msat (buffer_dust_limit_success_sat * 1000)
    else available_capacity_msat
  let state1 :=
    if remote_stats.dust_exposure_msat + buffer_dust_limit_success_sat * 1000
        > max_dust_htlc_exposure_msat + 1 then
      (some (max_dust_htlc_exposure_msat - remote_stats.dust_exposure_msat),
       max dust_exposure_dust_limit_msat (buffer_dust_limit_success_sat * 1000))
    else (remaining_msat_below_dust_exposure_limit, dust_exposure_dust_limit_msat)
  let remaining_msat_below_dust_exposure_limit := state1.1
  let dust_exposure_dust_limit_msat := state1.2
  let state2 :=
    if i64_of_u64 local_stats_max_fee.dust_exposure_msat
          + i64_of_u64 buffer_dust_limit_timeout_sat * 1000 - 1
        > i64_try_of_u64 max_dust_htlc_exposure_msat then
      (some (min (remaining_msat_below_dust_exposure_limit.getD (2 ^ 64 - 1))
              (max_dust_htlc_exposure_msat - local_stats_max_fee.dust_exposure_msat)),
       max dust_exposure_dust_limit_msat (buffer_dust_limit_timeout_sat * 1000))
    else (remaining_msat_below_dust_exposure_limit, dust_exposure_dust_limit_msat)
  let remaining_msat_below_dust_exposure_limit := state2.1
  let dust_exposure_dust_limit_msat := state2.2
  let next_outbound_htlc_minimum_msat :=
    if remaining_msat_below_dust_exposure_limit.isSome
        ∧ ¬ available_capacity_msat < dust_exposure_dust_limit_msat then
      max next_outbound_htlc_minimum_msat dust_exposure_dust_limit_msat
    else next_outbound_htlc_minimum_msat
  let available_capacity_msat :=
    if remaining_msat_below_dust_exposure_limit.isSome
        ∧ available_capacity_msat < dust_exposure_dust_limit_msat then
      min available_capacity_msat (remaining_msat_below_dust_exposure_limit.getD 0)
    else available_capacity_msat
  let available_capacity_msat :=
    min available_capacity_msat
      (wsub64 counterparty_channel_constraints.max_htlc_value_in_flight_msat
        (((pending_htlcs.filter (fun h => h.outbound)).map (fun h => h.amount_msat)).sum))
  let available_capacity_msat :=
    if (pending_htlcs.filter (fun h => h.outbound)).length + 1
        > counterparty_channel_constraints.max_accepted_htlcs then 0
    else available_capacity_msat
  { inbound_capacity_msat :=
      remote_stats.counterparty_balance_before_fee_msat
        - counterparty_channel_constraints.channel_reserve_satoshis * 1000
    outbound_capacity_msat := outbound_capacity_msat
    next_outbound_htlc_limit_msat := available_capacity_msat
    next_outbound_htlc_minimum_msat := next_outbound_htlc_minimum_msat }

/-- Estimator `SpecTxBuilder::get_available_balances` (`tx_builder.rs`).
The source calls `get_next_commitment_stats(..).unwrap()` three times; the
`unwrap` aborts are embedded as `none`. -/
def get_available_balances (is_outbound_from_holder : Bool)
    (channel_value_satoshis value_to_holder_msat : Nat)
    (pending_htlcs : List HTLCAmountDirection) (feerate_per_kw : Nat)
    (dust_exposure_limiting_feerate : Option Nat) (max_dust_htlc_exposure_msat : Nat)
    (holder_channel_constraints counterparty_channel_constraints : ChannelConstraints)
    (ct : ChannelTypeFeatures) : Option AvailableBalances := do
  let fee_spike_buffer_htlc := if ct.supports_anchor_zero_fee_commitments then 0 else 1
  let local_stats_max_fee ← get_next_commitment_stats true is_outbound_from_holder
    channel_value_satoshis value_to_holder_msat pending_htlcs (fee_spike_buffer_htlc + 1)
    feerate_per_kw dust_exposure_limiting_feerate
    holder_channel_constraints.dust_limit_satoshis ct
  let local_stats_min_fee ← get_next_commitment_stats true is_outbound_from_holder
    channel_value_satoshis value_to_holder_msat pending_htlcs fee_spike_buffer_htlc
    feerate_per_kw dust_exposure_limiting_feerate
    holder_channel_constraints.dust_limit_satoshis ct
  let remote_stats ← get_next_commitment_stats false is_outbound_from_holder
    channel_value_satoshis value_to_holder_msat pending_htlcs 1
    feerate_per_kw dust_exposure_limiting_feerate
    counterparty_channel_constraints.dust_limit_satoshis ct
  pure (available_balances_after_stats is_outbound_from_holder pending_htlcs feerate_per_kw
    max_dust_htlc_exposure_msat holder_channel_constraints counterparty_channel_constraints
    ct local_stats_max_fee local_stats_min_fee remote_stats)

/-- Specification-side variant of `available_balances_after_stats`, stated
from the spec's words for comparison with the source: "All arithmetic here
must use saturating/checked forms ...; there is no silent wraparound
permitted anywhere in this estimator."  It differs from the source-faithful
definition only in that the three plain `u64` subtractions saturate
(truncated `Nat` subtraction) instead of wrapping. -/
def available_balances_after_stats_saturating (is_outbound_from_holder : Bool)
    (pending_htlcs : List HTLCAmountDirection) (feerate_per_kw : Nat)
    (max_dust_htlc_exposure_msat : Nat)
    (holder_channel_constraints counterparty_channel_constraints : ChannelConstraints)
    (ct : ChannelTypeFeatures)
    (local_stats_max_fee local_stats_min_fee remote_stats : NextCommitmentStats) :
    AvailableBalances :=
  let outbound_capacity_msat :=
    local_stats_max_fee.holder_balance_before_fee_msat
      - holder_channel_constraints.channel_reserve_satoshis * 1000
  let available_capacity_msat := outbound_capacity_msat
  let real_fees := second_stage_tx_fees_sat ct feerate_per_kw
  let real_htlc_success_tx_fee_sat := real_fees.1
  let real_htlc_timeout_tx_fee_sat := real_fees.2
  let available_capacity_msat :=
    if is_outbound_from_holder then
      let real_dust_limit_timeout_sat :=
        real_htlc_timeout_tx_fee_sat + holder_channel_constraints.dust_limit_satoshis
      let max_reserved_commit_tx_fee_msat := local_stats_max_fee.commit_tx_fee_sat * 1000
      let min_reserved_commit_tx_fee_msat := local_stats_min_fee.commit_tx_fee_sat * 1000
      let max_reserved_commit_tx_fee_msat :=
        if !ct.supports_anchors_zero_fee_htlc_tx then
          max_reserved_commit_tx_fee_msat * FEE_SPIKE_BUFFER_FEE_INCREASE_MULTIPLE
        else max_reserved_commit_tx_fee_msat
      let min_reserved_commit_tx_fee_msat :=
        if !ct.supports_anchors_zero_fee_htlc_tx then
          min_reserved_commit_tx_fee_msat * FEE_SPIKE_BUFFER_FEE_INCREASE_MULTIPLE
        else min_reserved_commit_tx_fee_msat
      let capacity_minus_max_commitment_fee_msat :=
        available_capacity_msat - max_reserved_commit_tx_fee_msat
      if capacity_minus_max_commitment_fee_msat < real_dust_limit_timeout_sat * 1000 then
        let capacity_minus_min_commitment_fee_msat :=
          available_capacity_msat - min_reserved_commit_tx_fee_msat
        min (real_dust_limit_timeout_sat * 1000 - 1) capacity_minus_min_commitment_fee_msat
      else
        capacity_minus_max_commitment_fee_msat
    else
      let real_dust_limit_success_sat :=
        real_htlc_success_tx_fee_sat + counterparty_channel_constraints.dust_limit_satoshis
      let max_reserved_commit_tx_fee_msat := remote_stats.commit_tx_fee_sat * 1000
      let holder_selected_chan_reserve_msat :=
        counterparty_channel_constraints.channel_reserve_satoshis * 1000
      if remote_stats.counterparty_balance_before_fee_msat
          < max_reserved_commit_tx_fee_msat + holder_selected_chan_reserve_msat then
        min available_capacity_msat (real_dust_limit_success_sat * 1000 - 1)
      else
        available_capacity_msat
  let next_outbound_htlc_minimum_msat := counterparty_channel_constraints.htlc_minimum_msat
  let remaining_msat_below_dust_exposure_limit : Option Nat := none
  let dust_exposure_dust_limit_msat : Nat := 0
  let dust_buffer_feerate := get_dust_buffer_feerate feerate_per_kw
  let buffer_fees := second_stage_tx_fees_sat ct dust_buffer_feerate
  let buffer_dust_limit_success_sat :=
    buffer_fees.1 + counterparty_channel_constraints.dust_limit_satoshis
  let buffer_dust_limit_timeout_sat :=
    buffer_fees.2 + holder_channel_constraints.dust_limit_satoshis
  let available_capacity_msat :=
    if remote_stats.extra_accepted_htlc_dust_exposure_msat > max_dust_htlc_exposure_msat then
      min available_capacity_msat (buffer_dust_limit_success_sat * 1000)
    else available_capacity_msat
  let state1 :=
    if remote_stats.dust_exposure_msat + buffer_dust_limit_success_sat * 1000
        > max_dust_htlc_exposure_msat + 1 then
      (some (max_dust_htlc_exposure_msat - remote_stats.dust_exposure_msat),
       max dust_exposure_dust_limit_msat (buffer_dust_limit_success_sat * 1000))
    else (remaining_msat_below_dust_exposure_limit, dust_exposure_dust_limit_msat)
  let remaining_msat_below_dust_exposure_limit := state1.1
  let dust_exposure_dust_limit_msat := state1.2
  let state2 :=
    if i64_of_u64 local_stats_max_fee.dust_exposure_msat
          + i64_of_u64 buffer_dust_limit_timeout_sat * 1000 - 1
        > i64_try_of_u64 max_dust_htlc_exposure_msat then
      (some (min (remaining_msat_below_dust_exposure_limit.getD (2 ^ 64 - 1))
              (max_dust_htlc_exposure_msat - local_stats_max_fee.dust_exposure_msat)),
       max dust_exposure_dust_limit_msat (buffer_dust_limit_timeout_sat * 1000))
    else (remaining_msat_below_dust_exposure_limit, dust_exposure_dust_limit_msat)
  let remaining_msat_below_dust_exposure_limit := state2.1
  let dust_exposure_dust_limit_msat := state2.2
  let next_outbound_htlc_minimum_msat :=
    if remaining_msat_below_dust_exposure_limit.isSome
        ∧ ¬ available_capacity_msat < dust_exposure_dust_limit_msat then
      max next_outbound_htlc_minimum_msat dust_exposure_dust_limit_msat
    else next_outbound_htlc_minimum_msat
  let available_capacity_msat :=
    if remaining_msat_below_dust_exposure_limit.isSome
        ∧ available_capacity_msat < dust_exposure_dust_limit_msat then
      min available_capacity_msat (remaining_msat_below_dust_exposure_limit.getD 0)
    else available_capacity_msat
  let available_capacity_msat :=
    min available_capacity_msat
      (counterparty_channel_constraints.max_htlc_value_in_flight_msat
        - ((pending_htlcs.filter (fun h => h.outbound)).map (fun h => h.amount_msat)).sum)
  let available_capacity_msat :=
    if (pending_htlcs.filter (fun h => h.outbound)).length + 1
        > counterparty_channel_constraints.max_accepted_htlcs then 0
    else available_capacity_msat
  { inbound_capacity_msat :=
      remote_stats.counterparty_balance_before_fee_msat
        - counterparty_channel_constraints.channel_reserve_satoshis * 1000
    outbound_capacity_msat := outbound_capacity_msat
    next_outbound_htlc_limit_msat := available_capacity_msat
    next_outbound_htlc_minimum_msat := next_outbound_htlc_minimum_msat }

/-- Specification-side estimator with exclusively saturating/checked
arithmetic (see `available_balances_after_stats_saturating`). -/
def get_available_balances_saturating (is_outbound_from_holder : Bool)
    (channel_value_satoshis value_to_holder_msat : Nat)
    (pending_htlcs : List HTLCAmountDirection) (feerate_per_kw : Nat)
    (dust_exposure_limiting_feerate : Option Nat) (max_dust_htlc_exposure_msat : Nat)
    (holder_channel_constraints counterparty_channel_constraints : ChannelConstraints)
    (ct : ChannelTypeFeatures) : Option AvailableBalances := do
  let fee_spike_buffer_htlc := if ct.supports_anchor_zero_fee_commitments then 0 else 1
  let local_stats_max_fee ← get_next_commitment_stats true is_outbound_from_holder
    channel_value_satoshis value_to_holder_msat pending_htlcs (fee_spike_buffer_htlc + 1)
    feerate_per_kw dust_exposure_limiting_feerate
    holder_channel_constraints.dust_limit_satoshis ct
  let local_stats_min_fee ← get_next_commitment_stats true is_outbound_from_holder
    channel_value_satoshis value_to_holder_msat pending_htlcs fee_spike_buffer_htlc
    feerate_per_kw dust_exposure_limiting_feerate
    holder_channel_constraints.dust_limit_satoshis ct
  let remote_stats ← get_next_commitment_stats false is_outbound_from_holder
    channel_value_satoshis value_to_holder_msat pending_htlcs 1
    feerate_per_kw dust_exposure_limiting_feerate
    counterparty_channel_constraints.dust_limit_satoshis ct
  pure (available_balances_after_stats_saturating is_outbound_from_holder pending_htlcs
    feerate_per_kw max_dust_htlc_exposure_msat holder_channel_constraints
    counterparty_channel_constraints ct local_stats_max_fee local_stats_min_fee remote_stats)

/-- One HTLC embedded in a commitment transaction (`HTLCOutputInCommitment`
in `ln/chan_utils.rs`; only the fields read by the analyzed files are
represented). -/
structure HTLCOutputInCommitment where
  offered : Bool
  amount_msat : Nat
deriving DecidableEq, Repr

/-- Channel parameters as read by `build_commitment_transaction`
(`ChannelTransactionParameters` in `ln/chan_utils.rs`; key material and the
funding outpoint are irrelevant to the computed output values and omitted). -/
structure ChannelTransactionParameters where
  channel_value_satoshis : Nat
  is_outbound_from_holder : Bool
  channel_type_features : ChannelTypeFeatures
deriving DecidableEq, Repr

/-- Per-build statistics record (`CommitmentStats` in `ln/channel.rs`,
fields as populated by `tx_builder.rs`). -/
structure CommitmentStats where
  commit_tx_fee_sat : Nat
  local_balance_before_fee_msat : Nat
  remote_balance_before_fee_msat : Nat
deriving DecidableEq, Repr

/-- Dust-trimming closure of `SpecTxBuilder::build_commitment_transaction`
(`tx_builder.rs`): note that, unlike `HTLCAmountDirection::is_dust`, it
checks only the `anchors_zero_fee_htlc_tx` flag. -/
def build_commitment_is_dust (ct : ChannelTypeFeatures) (feerate_per_kw
    broadcaster_dust_limit_satoshis : Nat) (offered : Bool) (amount_msat : Nat) : Bool :=
  let htlc_tx_fee_sat :=
    if ct.supports_anchors_zero_fee_htlc_tx then 0
    else
      let htlc_tx_weight :=
        if offered then htlc_timeout_tx_weight ct else htlc_success_tx_weight ct
      feerate_per_kw * htlc_tx_weight / 1000
  decide (amount_msat / 1000 < broadcaster_dust_limit_satoshis + htlc_tx_fee_sat)

/-- Trimmed HTLC list and post-fee balances of
`SpecTxBuilder::build_commitment_transaction` before the dust-limit zeroing
of the two main outputs (`tx_builder.rs` up to the `value_to_self` /
`value_to_remote` computation).  The source's `checked_sub(..).unwrap()`
aborts are embedded as `none`; the fee subtraction from the funder's side
is saturating, as in the source. -/
structure PreZeroCommitment where
  htlcs_in_tx : List HTLCOutputInCommitment
  value_to_self_sat : Nat
  value_to_remote_sat : Nat
  stats : CommitmentStats
deriving DecidableEq, Repr

def commitment_values_before_zeroing (l : Bool)
    (channel_parameters : ChannelTransactionParameters) (value_to_self_msat : Nat)
    (htlcs_in_tx : List HTLCOutputInCommitment)
    (feerate_per_kw broadcaster_dust_limit_satoshis : Nat) : Option PreZeroCommitment := do
  let ct := channel_parameters.channel_type_features
  let local_htlc_total_msat :=
    ((htlcs_in_tx.filter (fun h => h.offered == l)).map (fun h => h.amount_msat)).sum
  let remote_htlc_total_msat :=
    ((htlcs_in_tx.filter (fun h => h.offered != l)).map (fun h => h.amount_msat)).sum
  let retained := htlcs_in_tx.filter (fun h =>
    !(build_commitment_is_dust ct feerate_per_kw broadcaster_dust_limit_satoshis
        h.offered h.amount_msat))
  let fee_sat := commit_tx_fee_sat feerate_per_kw retained.length ct
  let value_to_self_after_htlcs_msat ← checked_sub value_to_self_msat local_htlc_total_msat
  let channel_minus_self ←
    checked_sub (channel_parameters.channel_value_satoshis * 1000) value_to_self_msat
  let value_to_remote_after_htlcs_msat ← checked_sub channel_minus_self remote_htlc_total_msat
  let balances ← subtract_addl_outputs channel_parameters.is_outbound_from_holder
    value_to_self_after_htlcs_msat value_to_remote_after_htlcs_msat ct
  let values :=
    if channel_parameters.is_outbound_from_holder then
      (balances.1 / 1000 - fee_sat, balances.2 / 1000)
    else
      (balances.1 / 1000, balances.2 / 1000 - fee_sat)
  pure
    { htlcs_in_tx := retained
      value_to_self_sat := values.1
      value_to_remote_sat := values.2
      stats :=
        { commit_tx_fee_sat := fee_sat
          local_balance_before_fee_msat := balances.1
          remote_balance_before_fee_msat := balances.2 } }

/-- Value-level result of `SpecTxBuilder::build_commitment_transaction`
(`tx_builder.rs`).  The final `CommitmentTransaction::new` call only
packages these values with key material and is outside the analyzed
files. -/
structure BuiltCommitmentData where
  htlcs_in_tx : List HTLCOutputInCommitment
  to_broadcaster_value_sat : Nat
  to_countersignatory_value_sat : Nat
  stats : CommitmentStats
deriving DecidableEq, Repr

def build_commitment_transaction (l : Bool)
    (channel_parameters : ChannelTransactionParameters) (value_to_self_msat : Nat)
    (htlcs_in_tx : List HTLCOutputInCommitment)
    (feerate_per_kw broadcaster_dust_limit_satoshis : Nat) : Option BuiltCommitmentData :=
  (commitment_values_before_zeroing l channel_parameters value_to_self_msat htlcs_in_tx
      feerate_per_kw broadcaster_dust_limit_satoshis).map (fun pre =>
    let to_broadcaster_value_sat := if l then pre.value_to_self_sat else pre.value_to_remote_sat
    let to_countersignatory_value_sat :=
      if l then pre.value_to_remote_sat else pre.value_to_self_sat
    let to_broadcaster_value_sat :=
      if to_broadcaster_value_sat ≥ broadcaster_dust_limit_satoshis then
        to_broadcaster_value_sat
      else 0
    let to_countersignatory_value_sat :=
      if to_countersignatory_value_sat ≥ broadcaster_dust_limit_satoshis then
        to_countersignatory_value_sat
      else 0
    { htlcs_in_tx := pre.htlcs_in_tx
      to_broadcaster_value_sat := to_broadcaster_value_sat
      to_countersignatory_value_sat := to_countersignatory_value_sat
      stats := pre.stats })

/-- Transaction input as touched by the claims sweeper: only its witness is
assigned. -/
structure TxIn where
  witness : List (List Nat)
deriving DecidableEq, Repr

/-- Transaction as touched by the claims sweeper (`bitcoin::Transaction`;
only the input list is read or written by the analyzed code). -/
structure Transaction where
  input : List TxIn
deriving DecidableEq, Repr

/-- Modelled from the spec: the raw signing capability plus the external
redeem-script/key derivations consumed by `witness_builder.rs`
(`EcdsaChannelSigner`, `TxCreationKeys` and the `chan_utils` script
constructors are not among the analyzed files).  Signatures, keys and
scripts are abstract byte-string stand-ins; each signing call may return a
typed failure (`none`). -/
structure WitnessOps where
  sign_justice_revoked_output : Transaction → Nat → Nat → Nat → Option (List Nat)
  sign_justice_revoked_htlc :
    Transaction → Nat → Nat → Nat → HTLCOutputInCommitment → Option (List Nat)
  sign_counterparty_htlc_transaction :
    Transaction → Nat → Nat → Nat → HTLCOutputInCommitment → Option (List Nat)
  revocation_key_bytes : Nat → List Nat
  revokeable_redeemscript : Nat → List Nat
  htlc_redeemscript : Nat → HTLCOutputInCommitment → List Nat

/-- Witness for the revoked-output penalty spend path
(`WitnessBuilder::spend_justice_revoked_output` in `witness_builder.rs`):
[signature, constant 1 selector byte, script]; a signing refusal propagates
as a typed failure. -/
def spend_justice_revoked_output (ops : WitnessOps) (justice_tx : Transaction)
    (input amount per_commitment_key : Nat) : Option (List (List Nat)) :=
  (ops.sign_justice_revoked_output justice_tx input amount per_commitment_key).map
    (fun sig => [sig, [1], ops.revokeable_redeemscript per_commitment_key])

/-- Witness for the revoked-HTLC penalty spend path
(`WitnessBuilder::spend_justice_revoked_htlc` in `witness_builder.rs`):
[signature, revocation public key, script]. -/
def spend_justice_revoked_htlc (ops : WitnessOps) (justice_tx : Transaction)
    (input amount per_commitment_key : Nat) (htlc : HTLCOutputInCommitment) :
    Option (List (List Nat)) :=
  (ops.sign_justice_revoked_htlc justice_tx input amount per_commitment_key htlc).map
    (fun sig =>
      [sig, ops.revocation_key_bytes per_commitment_key,
       ops.htlc_redeemscript per_commitment_key htlc])

/-- Witness for the counterparty HTLC claim/timeout spend path
(`WitnessBuilder::spend_counterparty_htlc_output` in `witness_builder.rs`):
[signature, preimage-or-empty, script]. -/
def spend_counterparty_htlc_output (ops : WitnessOps) (sweep_tx : Transaction)
    (input amount per_commitment_point : Nat) (htlc : HTLCOutputInCommitment)
    (preimage : Option (List Nat)) : Option (List (List Nat)) :=
  (ops.sign_counterparty_htlc_transaction sweep_tx input amount per_commitment_point htlc).map
    (fun sig =>
      let witness_item := match preimage with | some p => p | none => []
      [sig, witness_item, ops.htlc_redeemscript per_commitment_point htlc])

/-- Claim material handed to the sweeper (`PackageSolvingData` in
`chain/package.rs`; the constructors not handled by `finalize_input` are
collapsed into `OtherVariant`). -/
inductive PackageSolvingData where
  | RevokedOutput (per_commitment_key : Nat) (amount : Nat)
  | RevokedHTLCOutput (per_commitment_key : Nat) (htlc : HTLCOutputInCommitment) (amount : Nat)
  | CounterpartyOfferedHTLCOutput (per_commitment_point : Nat) (htlc : HTLCOutputInCommitment)
      (preimage : List Nat) (amount : Nat)
  | CounterpartyReceivedHTLCOutput (per_commitment_point : Nat) (htlc : HTLCOutputInCommitment)
      (amount : Nat)
  | OtherVariant
deriving DecidableEq, Repr

/-- Amount accessor `PackageSolvingData::amount` as used by
`finalize_input` (`chain/package.rs` is not among the analyzed files; the
amount is carried verbatim by each constructor). -/
def PackageSolvingData.amount : PackageSolvingData → Nat
  | .RevokedOutput _ a => a
  | .RevokedHTLCOutput _ _ a => a
  | .CounterpartyOfferedHTLCOutput _ _ _ a => a
  | .CounterpartyReceivedHTLCOutput _ _ a => a
  | .OtherVariant => 0

/-- Assignment `bumped_tx.input[i].witness = witness`. -/
def Transaction.setWitness (tx : Transaction) (i : Nat) (w : List (List Nat)) : Transaction :=
  { input := tx.input.set i { witness := w } }

/-- Sweeper input finalization (`ClaimsSweeper::finalize_input` in
`claims_sweeper.rs`).  The result pairs the possibly-updated transaction
with the returned `bool`; `none` is the `panic!("API Error!")` on the
unhandled claim variants.  A signing failure on the two justice paths
returns `false` without touching the input; a signing failure on the two
counterparty-HTLC paths leaves the input untouched but still returns
`true`. -/
def finalize_input (ops : WitnessOps) (claim : PackageSolvingData)
    (bumped_tx : Transaction) (i : Nat) : Option (Transaction × Bool) :=
  match claim with
  | .RevokedOutput per_commitment_key _ =>
    match spend_justice_revoked_output ops bumped_tx i claim.amount per_commitment_key with
    | some witness => some (bumped_tx.setWitness i witness, true)
    | none => some (bumped_tx, false)
  | .RevokedHTLCOutput per_commitment_key htlc _ =>
    match spend_justice_revoked_htlc ops bumped_tx i claim.amount per_commitment_key htlc with
    | some witness => some (bumped_tx.setWitness i witness, true)
    | none => some (bumped_tx, false)
  | .CounterpartyOfferedHTLCOutput per_commitment_point htlc preimage _ =>
    match spend_counterparty_htlc_output ops bumped_tx i claim.amount per_commitment_point
        htlc (some preimage) with
    | some witness => some (bumped_tx.setWitness i witness, true)
    | none => some (bumped_tx, true)
  | .CounterpartyReceivedHTLCOutput per_commitment_point htlc _ =>
    match spend_counterparty_htlc_output ops bumped_tx i claim.amount per_commitment_point
        htlc none with
    | some witness => some (bumped_tx.setWitness i witness, true)
    | none => some (bumped_tx, true)
  | .OtherVariant => none

/-- Signer operation categories (`SignerOp` in `test_channel_signer.rs`). -/
inductive SignerOp where
  | GetPerCommitmentPoint
  | ReleaseCommitmentSecret
  | ValidateHolderCommitment
  | SignCounterpartyCommitment
  | ValidateCounterpartyRevocation
  | SignHolderCommitment
  | SignJusticeRevokedOutput
  | SignJusticeRevokedHtlc
  | SignHolderHtlcTransaction
  | SignCounterpartyHtlcTransaction
  | SignClosingTransaction
  | SignHolderAnchorInput
  | SignChannelAnnouncementWithFundingKey
deriving DecidableEq, Repr

/-- Initial value for the downward-counting commitment counters
(`INITIAL_REVOKED_COMMITMENT_NUMBER` in `test_channel_signer.rs`). -/
def INITIAL_REVOKED_COMMITMENT_NUMBER : Nat := 2 ^ 48

/-- Policy-enforcement state shared by signer handles (`EnforcementState`
in `test_channel_signer.rs`); the disabled-operation `HashSet` is embedded
as a list. -/
structure EnforcementState where
  last_counterparty_commitment : Nat
  last_counterparty_revoked_commitment : Nat
  last_holder_revoked_commitment : Nat
  last_holder_commitment : Nat
  disabled_signer_ops : List SignerOp
deriving DecidableEq, Repr

/-- Enforcement state for a new channel (`EnforcementState::new`). -/
def EnforcementState.new : EnforcementState :=
  { last_counterparty_commitment := INITIAL_REVOKED_COMMITMENT_NUMBER
    last_counterparty_revoked_commitment := INITIAL_REVOKED_COMMITMENT_NUMBER
    last_holder_revoked_commitment := INITIAL_REVOKED_COMMITMENT_NUMBER
    last_holder_commitment := INITIAL_REVOKED_COMMITMENT_NUMBER
    disabled_signer_ops := [] }

/-- Guard `idx == c || idx == c - 1` on a downward-counting `u64` counter,
with the test-profile (overflow-checked) semantics of the `c - 1`
subtraction: short-circuit on the first disjunct, abort (`false`, leading
to a failed operation) when `c = 0` forces the underflowing `0 - 1`. -/
def step_guard (idx c : Nat) : Bool :=
  idx == c || (decide (1 ≤ c) && idx == c - 1)

/-- State transition of `TestChannelSigner::release_commitment_secret`
(`test_channel_signer.rs`): refuse when the operation is disabled, fault
when the index is not the current or next unrevoked holder commitment or
does not precede the last validated holder commitment, else record the
revocation.  The returned secret bytes come from the wrapped
`InMemorySigner` and are not modelled; `none` covers both the typed refusal
and the `assert!` fault. -/
def release_commitment_secret (s : EnforcementState) (idx : Nat) : Option EnforcementState :=
  if s.disabled_signer_ops.contains SignerOp.ReleaseCommitmentSecret then none
  else if step_guard idx s.last_holder_revoked_commitment then
    if idx > s.last_holder_commitment then
      some { s with last_holder_revoked_commitment := idx }
    else none
  else none

/-- State transition of `TestChannelSigner::validate_holder_commitment`
(`test_channel_signer.rs`); the commitment transaction itself is reduced to
its commitment number.  Note the source has no disabled-operation check
here. -/
def validate_holder_commitment (s : EnforcementState) (idx : Nat) : Option EnforcementState :=
  if step_guard idx s.last_holder_commitment then
    some { s with last_holder_commitment := idx }
  else none

/-- State transition of
`TestChannelSigner::validate_counterparty_revocation`
(`test_channel_signer.rs`). -/
def validate_counterparty_revocation (s : EnforcementState) (idx : Nat) :
    Option EnforcementState :=
  if s.disabled_signer_ops.contains SignerOp.ValidateCounterpartyRevocation then none
  else if step_guard idx s.last_counterparty_revoked_commitment then
    some { s with last_counterparty_revoked_commitment := idx }
  else none

/-- State transition of `TestChannelSigner::sign_counterparty_commitment`
(`test_channel_signer.rs`); the commitment transaction is reduced to its
commitment number and the cryptographic verification and signing of the
wrapped signer are not modelled.  The `state.last_counterparty_revoked_commitment - 2`
guard keeps the test-profile checked-subtraction semantics. -/
def sign_counterparty_commitment (s : EnforcementState) (idx : Nat) : Option EnforcementState :=
  if s.disabled_signer_ops.contains SignerOp.SignCounterpartyCommitment then none
  else if s.last_counterparty_commitment == idx
      || (decide (1 ≤ s.last_counterparty_commitment)
          && s.last_counterparty_commitment - 1 == idx) then
    if 2 ≤ s.last_counterparty_revoked_commitment
        ∧ s.last_counterparty_revoked_commitment - 2 ≤ idx then
      some { s with last_counterparty_commitment := min s.last_counterparty_commitment idx }
    else none
  else none

/-- States of the enforcement signer reachable from a fresh channel by
successful counter-updating operations. -/
inductive ReachableState : EnforcementState → Prop where
  | init : ReachableState EnforcementState.new
  | release {s s₂ : EnforcementState} {idx : Nat} : ReachableState s →
      release_commitment_secret s idx = some s₂ → ReachableState s₂
  | validate_holder {s s₂ : EnforcementState} {idx : Nat} : ReachableState s →
      validate_holder_commitment s idx = some s₂ → ReachableState s₂
  | validate_revocation {s s₂ : EnforcementState} {idx : Nat} : ReachableState s →
      validate_counterparty_revocation s idx = some s₂ → ReachableState s₂
  | sign_counterparty {s s₂ : EnforcementState} {idx : Nat} : ReachableState s →
      sign_counterparty_commitment s idx = some s₂ → ReachableState s₂
/-- Signer stand-in whose every raw signing call fails, for exercising the
failure paths of the sweeper. -/
def failingWitnessOps : WitnessOps :=
  { sign_justice_revoked_output := fun _ _ _ _ => none
    sign_justice_revoked_htlc := fun _ _ _ _ _ => none
    sign_counterparty_htlc_transaction := fun _ _ _ _ _ => none
    revocation_key_bytes := fun _ => []
    revokeable_redeemscript := fun _ => []
    htlc_redeemscript := fun _ _ => [] }

/-- Unchecked `u64` subtraction agrees with exact subtraction when no
underflow occurs and the minuend is in `u64` range. -/
theorem wsub64_eq_sub {a b : Nat} (hle : b ≤ a) (ha : a < 2 ^ 64) : wsub64 a b = a - b := by
  unfold wsub64
  omega

/-- The downward step guard holds exactly on the current counter value or
its predecessor (with the predecessor disjunct unavailable at zero). -/
theorem step_guard_iff (idx c : Nat) :
    step_guard idx c = true ↔ idx = c ∨ (1 ≤ c ∧ idx = c - 1) := by
  unfold step_guard
  simp [Bool.or_eq_true, Bool.and_eq_true, beq_iff_eq, decide_eq_true_iff]

/-- Both second-stage fees are bounded by the feerate (each template weight
is below 1000 weight units). -/
theorem second_stage_tx_fees_le (ct : ChannelTypeFeatures) (f : Nat) :
    (second_stage_tx_fees_sat ct f).1 ≤ f ∧ (second_stage_tx_fees_sat ct f).2 ≤ f := by
  unfold second_stage_tx_fees_sat htlc_success_tx_weight htlc_timeout_tx_weight
  split_ifs <;> constructor <;> simp <;> omega

/-- C1: the dust classifier returns true iff
`amount_msat / 1000 < broadcaster_dust_limit_satoshis + fee_contribution`,
where the fee contribution is 0 for zero-fee-HTLC channel types and
otherwise `feerate * weight / 1000` with the timeout-path weight when the
HTLC is offered by the broadcaster (`outbound == local`) and the
success-path weight otherwise. -/
theorem C1_is_dust_iff (h : HTLCAmountDirection) (l : Bool)
    (feerate_per_kw broadcaster_dust_limit_satoshis : Nat) (ct : ChannelTypeFeatures) :
    h.is_dust l feerate_per_kw broadcaster_dust_limit_satoshis ct = true ↔
      h.amount_msat / 1000 < broadcaster_dust_limit_satoshis +
        (if ct.has_zero_fee_htlc_txs then 0
         else feerate_per_kw *
          (if h.outbound = l then htlc_timeout_tx_weight ct else htlc_success_tx_weight ct)
            / 1000) := by
  unfold HTLCAmountDirection.is_dust second_stage_tx_fees_sat
  rcases hz : ct.has_zero_fee_htlc_txs <;> rcases ho : h.outbound == l <;>
    simp_all [beq_iff_eq, decide_eq_true_iff]

/-- C3 counterexample: with anchors negotiated and a funder balance of 100
msat (below the 660 000 msat anchor total), `subtract_addl_outputs` raises
a typed error rather than clamping the funder balance at zero. -/
theorem C3_counterexample :
    subtract_addl_outputs true 100 5000000 ⟨true, false⟩ = none := by decide

/-- C3 amended: when the channel type mandates anchor outputs, the builders
subtract the fixed anchor total from the fee-paying party's balance (and
only that balance) using checked subtraction: if that balance is smaller
than the anchor total the result is a typed error (`none`), not a clamp at
zero. -/
theorem C3_subtract_addl_outputs_checked (a b : Nat) (ct : ChannelTypeFeatures)
    (hanch : ct.anchors_zero_fee_htlc_tx = true) :
    (subtract_addl_outputs true a b ct =
      if ANCHOR_OUTPUT_VALUE_SATOSHI * 2 * 1000 ≤ a then
        some (a - ANCHOR_OUTPUT_VALUE_SATOSHI * 2 * 1000, b)
      else none)
    ∧ (subtract_addl_outputs false a b ct =
      if ANCHOR_OUTPUT_VALUE_SATOSHI * 2 * 1000 ≤ b then
        some (a, b - ANCHOR_OUTPUT_VALUE_SATOSHI * 2 * 1000)
      else none) := by
  unfold subtract_addl_outputs checked_sub ChannelTypeFeatures.supports_anchors_zero_fee_htlc_tx
  rw [hanch]
  constructor <;> · simp only [if_true, mul_assoc]
                    split_ifs <;> simp_all

/-- C3 witness: a concrete anchors channel where the funder side has the
anchor total available and the subtraction is exact. -/
theorem C3_subtract_addl_outputs_checked_witness :
    (⟨true, false⟩ : ChannelTypeFeatures).anchors_zero_fee_htlc_tx = true ∧
      subtract_addl_outputs true 700000 5 ⟨true, false⟩ =
        (if ANCHOR_OUTPUT_VALUE_SATOSHI * 2 * 1000 ≤ 700000 then
          some (700000 - ANCHOR_OUTPUT_VALUE_SATOSHI * 2 * 1000, 5)
        else none) :=
  ⟨rfl, (C3_subtract_addl_outputs_checked 700000 5 ⟨true, false⟩ rfl).1⟩

/-- C6 counterexample: at feerate 4 000 000 the `u32` multiplication
`feerate * 1250` overflows, the source substitutes `u32::MAX`, and the
result (4294967295) differs from `max(feerate + 2530, feerate * 1250 / 1000)`
(5000000). -/
theorem C6_counterexample :
    get_dust_buffer_feerate 4000000 ≠ max (4000000 + 2530) (4000000 * 1250 / 1000) := by
  decide

/-- C6 amended: whenever `feerate * 1250` fits in a `u32`, the dust buffer
feerate equals `max(feerate + 2530, feerate * 1250 / 1000)`; beyond that
the 25% term saturates to `u32::MAX`. -/
theorem C6_dust_buffer_feerate (feerate_per_kw : Nat) (h : feerate_per_kw * 1250 < 2 ^ 32) :
    get_dust_buffer_feerate feerate_per_kw =
      max (feerate_per_kw + 2530) (feerate_per_kw * 1250 / 1000) := by
  unfold get_dust_buffer_feerate
  rw [if_pos h]
  simp only [Option.map_some', Option.getD_some]
  omega

/-- C6 witness: the amended statement at feerate 253. -/
theorem C6_dust_buffer_feerate_witness :
    253 * 1250 < 2 ^ 32 ∧
      get_dust_buffer_feerate 253 = max (253 + 2530) (253 * 1250 / 1000) :=
  ⟨by decide, C6_dust_buffer_feerate 253 (by decide)⟩

/-- C7: in `finalize_input`, a signing failure on a revoked-output or
revoked-HTLC justice claim aborts that input (returns `false`), while a
signing failure on a counterparty offered/received HTLC claim does not:
the input is left untouched and `finalize_input` still returns `true`, so
a batching caller can skip it and proceed. -/
theorem C7_finalize_input_failure_semantics (ops : WitnessOps) (tx : Transaction) (i : Nat)
    (pck pcp a₁ a₂ a₃ a₄ : Nat) (htlc : HTLCOutputInCommitment) (preimage : List Nat) :
    (ops.sign_justice_revoked_output tx i a₁ pck = none →
      finalize_input ops (.RevokedOutput pck a₁) tx i = some (tx, false))
    ∧ (ops.sign_justice_revoked_htlc tx i a₂ pck htlc = none →
      finalize_input ops (.RevokedHTLCOutput pck htlc a₂) tx i = some (tx, false))
    ∧ (ops.sign_counterparty_htlc_transaction tx i a₃ pcp htlc = none →
      finalize_input ops (.CounterpartyOfferedHTLCOutput pcp htlc preimage a₃) tx i
        = some (tx, true))
    ∧ (ops.sign_counterparty_htlc_transaction tx i a₄ pcp htlc = none →
      finalize_input ops (.CounterpartyReceivedHTLCOutput pcp htlc a₄) tx i
        = some (tx, true)) := by
  refine ⟨fun h₁ => ?_, fun h₂ => ?_, fun h₃ => ?_, fun h₄ => ?_⟩ <;>
    simp [finalize_input, spend_justice_revoked_output, spend_justice_revoked_htlc,
      spend_counterparty_htlc_output, PackageSolvingData.amount, *]

/-- C7 witness: the four failure behaviours at a concrete one-input
transaction under the always-failing signer. -/
theorem C7_finalize_input_failure_semantics_witness :
    (finalize_input failingWitnessOps (.RevokedOutput 1 5) ⟨[⟨[]⟩]⟩ 0 = some (⟨[⟨[]⟩]⟩, false))
    ∧ (finalize_input failingWitnessOps (.RevokedHTLCOutput 1 ⟨true, 5⟩ 5) ⟨[⟨[]⟩]⟩ 0
        = some (⟨[⟨[]⟩]⟩, false))
    ∧ (finalize_input failingWitnessOps (.CounterpartyOfferedHTLCOutput 1 ⟨true, 5⟩ [9] 5)
        ⟨[⟨[]⟩]⟩ 0 = some (⟨[⟨[]⟩]⟩, true))
    ∧ (finalize_input failingWitnessOps (.CounterpartyReceivedHTLCOutput 1 ⟨true, 5⟩ 5)
        ⟨[⟨[]⟩]⟩ 0 = some (⟨[⟨[]⟩]⟩, true)) := by
  obtain ⟨p₁, p₂, p₃, p₄⟩ :=
    C7_finalize_input_failure_semantics failingWitnessOps ⟨[⟨[]⟩]⟩ 0 1 1 5 5 5 5 ⟨true, 5⟩ [9]
  exact ⟨p₁ rfl, p₂ rfl, p₃ rfl, p₄ rfl⟩

/-- C9: every successful counter-updating signer operation moves its
counter by at most one step toward zero (the new value is the previous
value or its predecessor; `sign_counterparty_commitment` stores the
minimum of the previous counter and the signed index) and leaves the other
three counters unchanged. -/
theorem C9_counters_step_down (s s₂ : EnforcementState) (idx : Nat) :
    (release_commitment_secret s idx = some s₂ →
      (s₂.last_holder_revoked_commitment = s.last_holder_revoked_commitment ∨
        s₂.last_holder_revoked_commitment = s.last_holder_revoked_commitment - 1)
      ∧ s₂.last_counterparty_commitment = s.last_counterparty_commitment
      ∧ s₂.last_counterparty_revoked_commitment = s.last_counterparty_revoked_commitment
      ∧ s₂.last_holder_commitment = s.last_holder_commitment)
    ∧ (validate_holder_commitment s idx = some s₂ →
      (s₂.last_holder_commitment = s.last_holder_commitment ∨
        s₂.last_holder_commitment = s.last_holder_commitment - 1)
      ∧ s₂.last_counterparty_commitment = s.last_counterparty_commitment
      ∧ s₂.last_counterparty_revoked_commitment = s.last_counterparty_revoked_commitment
      ∧ s₂.last_holder_revoked_commitment = s.last_holder_revoked_commitment)
    ∧ (validate_counterparty_revocation s idx = some s₂ →
      (s₂.last_counterparty_revoked_commitment = s.last_counterparty_revoked_commitment ∨
        s₂.last_counterparty_revoked_commitment
          = s.last_counterparty_revoked_commitment - 1)
      ∧ s₂.last_counterparty_commitment = s.last_counterparty_commitment
      ∧ s₂.last_holder_revoked_commitment = s.last_holder_revoked_commitment
      ∧ s₂.last_holder_commitment = s.last_holder_commitment)
    ∧ (sign_counterparty_commitment s idx = some s₂ →
      s₂.last_counterparty_commitment = min s.last_counterparty_commitment idx
      ∧ (s₂.last_counterparty_commitment = s.last_counterparty_commitment ∨
        s₂.last_counterparty_commitment = s.last_counterparty_commitment - 1)
      ∧ s₂.last_counterparty_revoked_commitment = s.last_counterparty_revoked_commitment
      ∧ s₂.last_holder_revoked_commitment = s.last_holder_revoked_commitment
      ∧ s₂.last_holder_commitment = s.last_holder_commitment) := by
  refine ⟨fun h₁ => ?_, fun h₂ => ?_, fun h₃ => ?_, fun h₄ => ?_⟩
  · unfold release_commitment_secret at h₁
    split_ifs at h₁ with hd hg hi
    rcases (step_guard_iff idx s.last_holder_revoked_commitment).mp hg with h | h <;>
      · injection h₁ with h₁
        subst h₁
        simp_all
  · unfold validate_holder_commitment at h₂
    split_ifs at h₂ with hg
    rcases (step_guard_iff idx s.last_holder_commitment).mp hg with h | h <;>
      · injection h₂ with h₂
        subst h₂
        simp_all
  · unfold validate_counterparty_revocation at h₃
    split_ifs at h₃ with hd hg
    rcases (step_guard_iff idx s.last_counterparty_revoked_commitment).mp hg with h | h <;>
      · injection h₃ with h₃
        subst h₃
        simp_all
  · unfold sign_counterparty_commitment at h₄
    split_ifs at h₄ with hd hg hr
    injection h₄ with h₄
    subst h₄
    simp only [Bool.or_eq_true, Bool.and_eq_true, beq_iff_eq, decide_eq_true_iff] at hg
    refine ⟨rfl, ?_, rfl, rfl, rfl⟩
    simp only
    omega

/-- C9 witness: a release step from a concrete state moves the holder
revocation counter from 10 to its predecessor 9 and touches nothing else. -/
theorem C9_counters_step_down_witness :
    release_commitment_secret ⟨10, 10, 10, 4, []⟩ 9 = some ⟨10, 10, 9, 4, []⟩
    ∧ (((⟨10, 10, 9, 4, []⟩ : EnforcementState).last_holder_revoked_commitment
          = (⟨10, 10, 10, 4, []⟩ : EnforcementState).last_holder_revoked_commitment ∨
        (⟨10, 10, 9, 4, []⟩ : EnforcementState).last_holder_revoked_commitment
          = (⟨10, 10, 10, 4, []⟩ : EnforcementState).last_holder_revoked_commitment - 1)
      ∧ (⟨10, 10, 9, 4, []⟩ : EnforcementState).last_counterparty_commitment
          = (⟨10, 10, 10, 4, []⟩ : EnforcementState).last_counterparty_commitment
      ∧ (⟨10, 10, 9, 4, []⟩ : EnforcementState).last_counterparty_revoked_commitment
          = (⟨10, 10, 10, 4, []⟩ : EnforcementState).last_counterparty_revoked_commitment
      ∧ (⟨10, 10, 9, 4, []⟩ : EnforcementState).last_holder_commitment
          = (⟨10, 10, 10, 4, []⟩ : EnforcementState).last_holder_commitment) :=
  ⟨by decide, (C9_counters_step_down ⟨10, 10, 10, 4, []⟩ ⟨10, 10, 9, 4, []⟩ 9).1 (by decide)⟩

/-- C2 counterexample: with no HTLCs, feerate 0, and a fixed channel
(value 10 000 sat, 9 500 000 msat to self), the countersignatory's main
output (500 sat before zeroing) is omitted or kept according to the
*broadcaster's* dust limit parameter (zeroed at limit 1000, kept at limit
400); the countersignatory's own dust limit is not an input of the
builder at all, so the output cannot be compared against it. -/
theorem C2_counterexample :
    (build_commitment_transaction true ⟨10000, true, ⟨false, false⟩⟩ 9500000 [] 0 1000).map
        (fun r => r.to_countersignatory_value_sat) = some 0
    ∧ (build_commitment_transaction true ⟨10000, true, ⟨false, false⟩⟩ 9500000 [] 0 400).map
        (fun r => r.to_countersignatory_value_sat) = some 500 := by
  constructor <;> decide

/-- C2 amended: `build_commitment_transaction` zeroes *both* main outputs
against the single broadcaster dust limit it receives: each output is
omitted exactly when its pre-zeroing value is below
`broadcaster_dust_limit_satoshis`. -/
theorem C2_main_outputs_zeroed_on_broadcaster_limit (l : Bool)
    (channel_parameters : ChannelTransactionParameters) (value_to_self_msat : Nat)
    (htlcs_in_tx : List HTLCOutputInCommitment)
    (feerate_per_kw broadcaster_dust_limit_satoshis : Nat) (r : BuiltCommitmentData)
    (h : build_commitment_transaction l channel_parameters value_to_self_msat htlcs_in_tx
      feerate_per_kw broadcaster_dust_limit_satoshis = some r) :
    ∃ pre, commitment_values_before_zeroing l channel_parameters value_to_self_msat htlcs_in_tx
        feerate_per_kw broadcaster_dust_limit_satoshis = some pre
      ∧ r.to_broadcaster_value_sat =
          (if (if l then pre.value_to_self_sat else pre.value_to_remote_sat)
              < broadcaster_dust_limit_satoshis then 0
           else if l then pre.value_to_self_sat else pre.value_to_remote_sat)
      ∧ r.to_countersignatory_value_sat =
          (if (if l then pre.value_to_remote_sat else pre.value_to_self_sat)
              < broadcaster_dust_limit_satoshis then 0
           else if l then pre.value_to_remote_sat else pre.value_to_self_sat) := by
  unfold build_commitment_transaction at h
  cases hp : commitment_values_before_zeroing l channel_parameters value_to_self_msat
      htlcs_in_tx feerate_per_kw broadcaster_dust_limit_satoshis with
  | none => rw [hp] at h; simp at h
  | some pre =>
    rw [hp] at h
    simp only [Option.map_some'] at h
    injection h with h
    refine ⟨pre, rfl, ?_, ?_⟩ <;>
      · rw [← h]
        dsimp only
        split_ifs <;> first | rfl | omega

/-- C2 witness: the amended zeroing relation at a concrete build in which
the broadcaster output is kept and the countersignatory output is
zeroed. -/
theorem C2_main_outputs_zeroed_on_broadcaster_limit_witness :
    ∃ pre, commitment_values_before_zeroing true ⟨10000, true, ⟨false, false⟩⟩ 9500000 [] 0 1000
        = some pre
      ∧ (⟨[], 9500, 0, ⟨0, 9500000, 500000⟩⟩ : BuiltCommitmentData).to_broadcaster_value_sat =
          (if (if true then pre.value_to_self_sat else pre.value_to_remote_sat) < 1000 then 0
           else if true then pre.value_to_self_sat else pre.value_to_remote_sat)
      ∧ (⟨[], 9500, 0, ⟨0, 9500000, 500000⟩⟩ : BuiltCommitmentData).to_countersignatory_value_sat =
          (if (if true then pre.value_to_remote_sat else pre.value_to_self_sat) < 1000 then 0
           else if true then pre.value_to_remote_sat else pre.value_to_self_sat) :=
  C2_main_outputs_zeroed_on_broadcaster_limit true ⟨10000, true, ⟨false, false⟩⟩ 9500000 [] 0
    1000 ⟨[], 9500, 0, ⟨0, 9500000, 500000⟩⟩ (by decide)

/-- A stats-builder input whose pending outbound HTLC total exceeds the
holder balance makes `get_next_commitment_stats` return the typed failure
`Err(())` (embedded as `none`): the checked subtraction of the outbound
total underflows. -/
theorem stats_none_of_outbound_exceeding_balance (l io : Bool)
    (channel_value_satoshis value_to_holder_msat : Nat)
    (htlcs : List HTLCAmountDirection) (addl feerate_per_kw : Nat)
    (dust_exposure_limiting_feerate : Option Nat) (bdl : Nat) (ct : ChannelTypeFeatures)
    (hviol : value_to_holder_msat
      < ((htlcs.filter (fun h => h.outbound)).map (fun h => h.amount_msat)).sum) :
    get_next_commitment_stats l io channel_value_satoshis value_to_holder_msat htlcs addl
      feerate_per_kw dust_exposure_limiting_feerate bdl ct = none := by
  have h₂ : ¬ (((htlcs.filter (fun h => h.outbound)).map (fun h => h.amount_msat)).sum
      ≤ value_to_holder_msat) := by omega
  rcases le_or_lt value_to_holder_msat (channel_value_satoshis * 1000) with h₁ | h₁
  · simp [get_next_commitment_stats, checked_sub, h₁, h₂]
  · simp [get_next_commitment_stats, checked_sub, h₂, Nat.not_le.mpr h₁]

/-- C4 counterexample: on a speculative input whose pending outbound HTLC
total (2000 msat) exceeds the holder balance (1000 msat),
`get_available_balances` does not return a typed failure: it `unwrap`s the
stats builder's `Err` and aborts (embedded as `none`). -/
theorem C4_counterexample :
    get_available_balances true 100000 1000 [⟨true, 2000⟩] 0 none 1000000
      ⟨10, 0, 0, 1000000, 10⟩ ⟨10, 0, 0, 1000000, 10⟩ ⟨false, false⟩ = none := by
  decide

/-- C4 amended: on every input whose pending outbound HTLC total exceeds
the holder balance, `get_next_commitment_stats` returns the typed failure
`Err(())`, but `get_available_balances` `unwrap`s that result and aborts
with an unrecoverable fault instead of returning a typed failure (both
embedded as `none`; the stats builder's `none` is the typed `Err`, the
estimator's `none` is the `unwrap` panic). -/
theorem C4_stats_err_estimator_unwraps (l io : Bool)
    (channel_value_satoshis value_to_holder_msat : Nat)
    (htlcs : List HTLCAmountDirection) (addl feerate_per_kw : Nat)
    (dust_exposure_limiting_feerate : Option Nat) (bdl max_dust_htlc_exposure_msat : Nat)
    (hcc ccc : ChannelConstraints) (ct : ChannelTypeFeatures)
    (hviol : value_to_holder_msat
      < ((htlcs.filter (fun h => h.outbound)).map (fun h => h.amount_msat)).sum) :
    get_next_commitment_stats l io channel_value_satoshis value_to_holder_msat htlcs addl
      feerate_per_kw dust_exposure_limiting_feerate bdl ct = none
    ∧ get_available_balances io channel_value_satoshis value_to_holder_msat htlcs
      feerate_per_kw dust_exposure_limiting_feerate max_dust_htlc_exposure_msat hcc ccc ct
      = none := by
  refine ⟨stats_none_of_outbound_exceeding_balance _ _ _ _ _ _ _ _ _ _ hviol, ?_⟩
  have key : ∀ addl₂ bdl₂, get_next_commitment_stats true io channel_value_satoshis
      value_to_holder_msat htlcs addl₂ feerate_per_kw dust_exposure_limiting_feerate bdl₂ ct
      = none :=
    fun addl₂ bdl₂ => stats_none_of_outbound_exceeding_balance _ _ _ _ _ _ _ _ _ _ hviol
  simp [get_available_balances, key]

/-- C4 witness: the amended statement at the concrete violating input. -/
theorem C4_stats_err_estimator_unwraps_witness :
    (1000 : Nat) < (([⟨true, 2000⟩] : List HTLCAmountDirection).filter
        (fun h => h.outbound) |>.map (fun h => h.amount_msat)).sum
    ∧ get_next_commitment_stats true true 100000 1000 [⟨true, 2000⟩] 2 0 none 10
        ⟨false, false⟩ = none
    ∧ get_available_balances true 100000 1000 [⟨true, 2000⟩] 0 none 1000000
        ⟨10, 0, 0, 1000000, 10⟩ ⟨10, 0, 0, 1000000, 10⟩ ⟨false, false⟩ = none :=
  ⟨by decide,
    (C4_stats_err_estimator_unwraps true true 100000 1000 [⟨true, 2000⟩] 2 0 none 10 1000000
      ⟨10, 0, 0, 1000000, 10⟩ ⟨10, 0, 0, 1000000, 10⟩ ⟨false, false⟩ (by decide)).1,
    (C4_stats_err_estimator_unwraps true true 100000 1000 [⟨true, 2000⟩] 2 0 none 10 1000000
      ⟨10, 0, 0, 1000000, 10⟩ ⟨10, 0, 0, 1000000, 10⟩ ⟨false, false⟩ (by decide)).2⟩

/-- Equality of the faithful and fully-saturating estimator cores when no
subtraction can wrap: the only sites where the two differ are the three
plain `u64` subtractions. -/
theorem avail_pure_sat_eq (io : Bool) (pending : List HTLCAmountDirection)
    (f mde : Nat) (hcc ccc : ChannelConstraints) (ct : ChannelTypeFeatures)
    (a b c : NextCommitmentStats)
    (hsum : ((pending.filter (fun h => h.outbound)).map (fun h => h.amount_msat)).sum
      ≤ ccc.max_htlc_value_in_flight_msat)
    (hmax : ccc.max_htlc_value_in_flight_msat < 2 ^ 64)
    (hd1 : 1 ≤ hcc.dust_limit_satoshis) (hd2 : 1 ≤ ccc.dust_limit_satoshis)
    (hf : f < 2 ^ 32) (hb1 : hcc.dust_limit_satoshis < 2 ^ 32)
    (hb2 : ccc.dust_limit_satoshis < 2 ^ 32) :
    available_balances_after_stats io pending f mde hcc ccc ct a b c
      = available_balances_after_stats_saturating io pending f mde hcc ccc ct a b c := by
  have hts := second_stage_tx_fees_le ct f
  have e1 : wsub64 (((second_stage_tx_fees_sat ct f).2 + hcc.dust_limit_satoshis) * 1000) 1
      = ((second_stage_tx_fees_sat ct f).2 + hcc.dust_limit_satoshis) * 1000 - 1 :=
    wsub64_eq_sub (by omega) (by omega)
  have e2 : wsub64 (((second_stage_tx_fees_sat ct f).1 + ccc.dust_limit_satoshis) * 1000) 1
      = ((second_stage_tx_fees_sat ct f).1 + ccc.dust_limit_satoshis) * 1000 - 1 :=
    wsub64_eq_sub (by omega) (by omega)
  have e3 : wsub64 ccc.max_htlc_value_in_flight_msat
      (((pending.filter (fun h => h.outbound)).map (fun h => h.amount_msat)).sum)
      = ccc.max_htlc_value_in_flight_msat
        - ((pending.filter (fun h => h.outbound)).map (fun h => h.amount_msat)).sum :=
    wsub64_eq_sub hsum hmax
  unfold available_balances_after_stats available_balances_after_stats_saturating
  simp only [e1, e2, e3]

/-- C5 counterexample: with one pending outbound HTLC of 100 000 msat and a
counterparty max-in-flight of 50 000 msat, the plain subtraction
`max_htlc_value_in_flight_msat - pending_outbound_sum` in the estimator
wraps around: the faithful estimator reports a next-HTLC limit of
800 000 msat (exceeding the 50 000 msat in-flight cap) where the
all-saturating variant reports 0. -/
theorem C5_counterexample :
    get_available_balances true 1000 900000 [⟨true, 100000⟩] 0 none 1000000
        ⟨10, 0, 0, 1000000000, 10⟩ ⟨10, 0, 0, 50000, 10⟩ ⟨false, true⟩
      ≠ get_available_balances_saturating true 1000 900000 [⟨true, 100000⟩] 0 none 1000000
        ⟨10, 0, 0, 1000000000, 10⟩ ⟨10, 0, 0, 50000, 10⟩ ⟨false, true⟩
    ∧ (get_available_balances true 1000 900000 [⟨true, 100000⟩] 0 none 1000000
        ⟨10, 0, 0, 1000000000, 10⟩ ⟨10, 0, 0, 50000, 10⟩ ⟨false, true⟩).map
          AvailableBalances.next_outbound_htlc_limit_msat = some 800000 := by
  constructor <;> decide

/-- C5 amended: the estimator's arithmetic is saturating/checked except for
three plain `u64` subtractions (the two right-below-dust `* 1000 - 1`
values, harmless whenever the dust limits are nonzero, and the
max-in-flight headroom subtraction, which wraps whenever the pending
outbound total exceeds the counterparty's max-in-flight limit): whenever
the pending outbound total is within the max-in-flight limit (and inputs
are in machine range with nonzero dust limits), the estimator agrees with
its fully-saturating rewrite. -/
theorem C5_estimator_saturating_agreement (io : Bool) (cv v : Nat)
    (pending : List HTLCAmountDirection) (f : Nat) (delf : Option Nat) (mde : Nat)
    (hcc ccc : ChannelConstraints) (ct : ChannelTypeFeatures)
    (hsum : ((pending.filter (fun h => h.outbound)).map (fun h => h.amount_msat)).sum
      ≤ ccc.max_htlc_value_in_flight_msat)
    (hmax : ccc.max_htlc_value_in_flight_msat < 2 ^ 64)
    (hd1 : 1 ≤ hcc.dust_limit_satoshis) (hd2 : 1 ≤ ccc.dust_limit_satoshis)
    (hf : f < 2 ^ 32) (hb1 : hcc.dust_limit_satoshis < 2 ^ 32)
    (hb2 : ccc.dust_limit_satoshis < 2 ^ 32) :
    get_available_balances io cv v pending f delf mde hcc ccc ct
      = get_available_balances_saturating io cv v pending f delf mde hcc ccc ct := by
  have hpt : ∀ a b c, available_balances_after_stats io pending f mde hcc ccc ct a b c
      = available_balances_after_stats_saturating io pending f mde hcc ccc ct a b c :=
    fun a b c => avail_pure_sat_eq io pending f mde hcc ccc ct a b c hsum hmax hd1 hd2 hf hb1 hb2
  simp only [get_available_balances, get_available_balances_saturating, hpt]

/-- C5 witness: the agreement at a concrete input whose pending outbound
total (40 000 msat) is within the 50 000 msat in-flight cap. -/
theorem C5_estimator_saturating_agreement_witness :
    ((([⟨true, 40000⟩] : List HTLCAmountDirection).filter (fun h => h.outbound)).map
        (fun h => h.amount_msat)).sum
      ≤ (⟨10, 0, 0, 50000, 10⟩ : ChannelConstraints).max_htlc_value_in_flight_msat
    ∧ get_available_balances true 1000 900000 [⟨true, 40000⟩] 0 none 1000000
        ⟨10, 0, 0, 1000000000, 10⟩ ⟨10, 0, 0, 50000, 10⟩ ⟨false, true⟩
      = get_available_balances_saturating true 1000 900000 [⟨true, 40000⟩] 0 none 1000000
        ⟨10, 0, 0, 1000000000, 10⟩ ⟨10, 0, 0, 50000, 10⟩ ⟨false, true⟩ :=
  ⟨by decide, C5_estimator_saturating_agreement true 1000 900000 [⟨true, 40000⟩] 0 none 1000000
    ⟨10, 0, 0, 1000000000, 10⟩ ⟨10, 0, 0, 50000, 10⟩ ⟨false, true⟩ (by decide) (by decide)
    (by decide) (by decide) (by decide) (by decide) (by decide)⟩

/-- The per-stage capacity reassignments of the estimator only ever shrink
the running next-HTLC capacity, so the final limit stays below the initial
outbound capacity. -/
theorem avail_pure_next_le (io : Bool) (pending : List HTLCAmountDirection)
    (f mde : Nat) (hcc ccc : ChannelConstraints) (ct : ChannelTypeFeatures)
    (a b c : NextCommitmentStats) :
    (available_balances_after_stats io pending f mde hcc ccc ct
        a b c).next_outbound_htlc_limit_msat
      ≤ (available_balances_after_stats io pending f mde hcc ccc ct
        a b c).outbound_capacity_msat := by
  suffices hres : ∀ res : AvailableBalances,
      available_balances_after_stats io pending f mde hcc ccc ct a b c = res →
      res.next_outbound_htlc_limit_msat ≤ res.outbound_capacity_msat from hres _ rfl
  intro res h
  unfold available_balances_after_stats at h
  lift_lets at h
  extract_lets v01 v02 v03 v04 v05 v06 v07 v08 v09 v10 v11 v12 v13 v14 v15 v16 v17 v18 v19 v20
    v21 v22 v23 v24 v25 v26 v27 v28 v29 v30 v31 v32 v33 v34 at h
  have h11 : v11 ≤ v02 := by unfold v11; omega
  have h12 : v12 ≤ v02 := by unfold v12; omega
  have h16 : v16 ≤ v02 := by unfold v16; split_ifs <;> omega
  have h24 : v24 ≤ v16 := by unfold v24; split_ifs <;> omega
  have h32 : v32 ≤ v24 := by unfold v32; split_ifs <;> omega
  have h33 : v33 ≤ v32 := by unfold v33; omega
  have h34 : v34 ≤ v33 := by unfold v34; split_ifs <;> omega
  have h02 : v02 = v01 := rfl
  rw [← h]
  dsimp only
  omega

/-- C10: whenever `get_available_balances` returns, the reported
next-outbound-HTLC limit never exceeds the reported total outbound
capacity. -/
theorem C10_next_limit_le_outbound (io : Bool) (cv v : Nat)
    (pending : List HTLCAmountDirection) (f : Nat) (delf : Option Nat) (mde : Nat)
    (hcc ccc : ChannelConstraints) (ct : ChannelTypeFeatures) (r : AvailableBalances)
    (h : get_available_balances io cv v pending f delf mde hcc ccc ct = some r) :
    r.next_outbound_htlc_limit_msat ≤ r.outbound_capacity_msat := by
  unfold get_available_balances at h
  simp only [bind, Option.bind_eq_some, Option.pure_def, Option.some.injEq] at h
  obtain ⟨a, ha, b, hb, c, hc, hr⟩ := h
  subst hr
  exact avail_pure_next_le io pending f mde hcc ccc ct a b c

/-- C10 witness: the bound at a concrete returning input. -/
theorem C10_next_limit_le_outbound_witness :
    get_available_balances true 1000 900000 [⟨true, 100000⟩] 0 none 1000000
        ⟨10, 0, 0, 1000000000, 10⟩ ⟨10, 0, 0, 50000, 10⟩ ⟨false, true⟩
      = some ⟨100000, 800000, 800000, 0⟩
    ∧ (⟨100000, 800000, 800000, 0⟩ : AvailableBalances).next_outbound_htlc_limit_msat
      ≤ (⟨100000, 800000, 800000, 0⟩ : AvailableBalances).outbound_capacity_msat :=
  ⟨by decide, C10_next_limit_le_outbound true 1000 900000 [⟨true, 100000⟩] 0 none 1000000
    ⟨10, 0, 0, 1000000000, 10⟩ ⟨10, 0, 0, 50000, 10⟩ ⟨false, true⟩ ⟨100000, 800000, 800000, 0⟩
    (by decide)⟩

/-- Every state of the form
`(sentinel, sentinel, sentinel - k, sentinel - (k + 1))` is reachable from
a fresh channel by alternating holder-commitment validations and
commitment-secret releases. -/
theorem reachable_descent (k : Nat) (hk : k + 2 ≤ 2 ^ 48) :
    ReachableState ⟨2 ^ 48, 2 ^ 48, 2 ^ 48 - k, 2 ^ 48 - (k + 1), []⟩ := by
  induction k with
  | zero =>
    exact ReachableState.validate_holder ReachableState.init
      (show validate_holder_commitment EnforcementState.new (2 ^ 48 - 1)
          = some ⟨2 ^ 48, 2 ^ 48, 2 ^ 48, 2 ^ 48 - 1, []⟩ by decide)
  | succ k ih =>
    have hk2 : k + 2 ≤ 2 ^ 48 := by omega
    have hgv : step_guard (2 ^ 48 - (k + 2)) (2 ^ 48 - (k + 1)) = true :=
      (step_guard_iff _ _).mpr (by omega)
    have hv : validate_holder_commitment ⟨2 ^ 48, 2 ^ 48, 2 ^ 48 - k, 2 ^ 48 - (k + 1), []⟩
        (2 ^ 48 - (k + 2)) = some ⟨2 ^ 48, 2 ^ 48, 2 ^ 48 - k, 2 ^ 48 - (k + 2), []⟩ := by
      unfold validate_holder_commitment
      rw [if_pos hgv]
    have hgr : step_guard (2 ^ 48 - (k + 1)) (2 ^ 48 - k) = true :=
      (step_guard_iff _ _).mpr (by omega)
    have hr : release_commitment_secret ⟨2 ^ 48, 2 ^ 48, 2 ^ 48 - k, 2 ^ 48 - (k + 2), []⟩
        (2 ^ 48 - (k + 1)) = some ⟨2 ^ 48, 2 ^ 48, 2 ^ 48 - (k + 1), 2 ^ 48 - (k + 2), []⟩ := by
      unfold release_commitment_secret
      rw [if_neg (by simp), if_pos hgr,
        if_pos (by omega : 2 ^ 48 - (k + 1) > 2 ^ 48 - (k + 2))]
    exact ReachableState.release (ReachableState.validate_holder (ih hk2) hv) hr

/-- C8 counterexample: commitment indices count downward in this signer, so
no enforcement state whatsoever (reachable or not) admits
`release_commitment_secret 5` followed by `release_commitment_secret 6`:
the first success pins the revocation counter to 5, and 6 is neither 5 nor
its predecessor. -/
theorem C8_counterexample :
    ¬ ∃ s s₂ s₃ : EnforcementState,
        release_commitment_secret s 5 = some s₂ ∧ release_commitment_secret s₂ 6 = some s₃ := by
  rintro ⟨s, s₂, s₃, h₁, h₂⟩
  have h5 : s₂.last_holder_revoked_commitment = 5 := by
    unfold release_commitment_secret at h₁
    split_ifs at h₁ <;> injection h₁ with h₁ <;> rw [← h₁]
  unfold release_commitment_secret step_guard at h₂
  rw [h5] at h₂
  split_ifs at h₂ <;> simp_all

/-- C8 amended: with downward-counting indices, the mirrored sequence
holds: from a reachable enforcement state (counters at 7/4), releasing
secret 6 then secret 5 succeeds, after which releasing 6 faults/refuses
(stale, already revoked past it) and releasing 3 faults/refuses (skips
4). -/
theorem C8_release_sequencing :
    ∃ s s₂ s₃ : EnforcementState, ReachableState s
      ∧ release_commitment_secret s 6 = some s₂
      ∧ release_commitment_secret s₂ 5 = some s₃
      ∧ release_commitment_secret s₃ 6 = none
      ∧ release_commitment_secret s₃ 3 = none := by
  refine ⟨⟨2 ^ 48, 2 ^ 48, 7, 4, []⟩, ⟨2 ^ 48, 2 ^ 48, 6, 4, []⟩, ⟨2 ^ 48, 2 ^ 48, 5, 4, []⟩,
    ?_, by decide, by decide, by decide, by decide⟩
  have h₀ := reachable_descent (2 ^ 48 - 7) (by norm_num)
  have e₁ : 2 ^ 48 - (2 ^ 48 - 7) = 7 := by norm_num
  have e₂ : 2 ^ 48 - (2 ^ 48 - 7 + 1) = 6 := by norm_num
  rw [e₁, e₂] at h₀
  have h₁ := ReachableState.validate_holder h₀
    (show validate_holder_commitment ⟨2 ^ 48, 2 ^ 48, 7, 6, []⟩ 5
        = some ⟨2 ^ 48, 2 ^ 48, 7, 5, []⟩ by decide)
  exact ReachableState.validate_holder h₁
    (show validate_holder_commitment ⟨2 ^ 48, 2 ^ 48, 7, 5, []⟩ 4
        = some ⟨2 ^ 48, 2 ^ 48, 7, 4, []⟩ by decide)
